import Mathlib

/-!
Verification development for the Poland air-quality ETL repository.

The repository has two batch scripts:
* the Collector (data_scraper.py): fetches daily weather and hourly air
  quality per city over HTTP with a retry wrapper, resamples air quality to
  daily means, merges with weather on the date column, concatenates all
  cities and writes one CSV;
* the Aggregator (etl_pipeline.py): loads that CSV, filters to year >= 2016,
  derives calendar columns and computes a family of group-by summaries.

Dataframes are embedded as lists of records, JSON payloads as an inductive
type with Python truthiness, and the HTTP world as an oracle mapping an
endpoint and an attempt number to an outcome.
-/

/-- Python-style JSON values, as produced by response.json(). -/
inductive Json where
  | null
  | bool (b : Bool)
  | num (q : ℚ)
  | str (s : String)
  | arr (elems : List Json)
  | obj (fields : List (String × Json))

/-- Python truthiness of a JSON value: None, False, 0, empty string, empty
list and empty dict are falsy, everything else truthy. This is the test that
the expression `if not w_data` in get_historical_data performs. -/
def Json.truthy : Json → Bool
  | .null => false
  | .bool b => b
  | .num q => decide (¬ q = 0)
  | .str s => decide (¬ s = "")
  | .arr elems => !elems.isEmpty
  | .obj fields => !fields.isEmpty

/-- Truthiness of the value returned by safe_request: None is falsy,
otherwise Python truthiness of the JSON payload. -/
def truthyOpt : Option Json → Bool
  | none => false
  | some j => j.truthy

/-- Dictionary lookup, as in w_data of a key. Returns none when the value is
not an object or the key is absent. -/
def Json.get? : Json → String → Option Json
  | .obj fields, k => (fields.find? (fun kv => kv.1 = k)).map Prod.snd
  | _, _ => none

/-- The membership test of a key in a JSON object, as in the Python
expression testing whether hourly is a key of a_data. -/
def Json.hasKey (j : Json) (k : String) : Bool := (j.get? k).isSome

/-- One attempt of requests.get: either an HTTP response carrying a status
code and a parsed JSON body, or a transport exception (which in the source
also covers a body that fails JSON parsing, since response.json() is inside
the same try block). -/
inductive ReqOutcome where
  | success (code : Nat) (body : Json)
  | netError

/-- Observable behaviour of one safe_request call: the returned value, the
number of loop iterations consumed, and the durations (in seconds) of the
time.sleep calls it made, in order. -/
structure FetchTrace where
  result : Option Json
  attempts : Nat
  sleeps : List Nat

/-- The retry loop body of safe_request, recursing on the remaining number
of attempts. Mirrors the branch order of the source: status 200 returns the
body; 429 sleeps wait_time; status >= 500 sleeps wait_time; any other status
sleeps 2 seconds; a transport exception sleeps wait_time. Exhaustion returns
None. -/
def safe_request_go (resp : Nat → ReqOutcome) (wait_time attempt : Nat) : Nat → FetchTrace
  | 0 => ⟨none, 0, []⟩
  | fuel + 1 =>
    match resp attempt with
    | .success code body =>
      if code = 200 then ⟨some body, 1, []⟩
      else if code = 429 then
        let t := safe_request_go resp wait_time (attempt + 1) fuel
        ⟨t.result, t.attempts + 1, wait_time :: t.sleeps⟩
      else if 500 ≤ code then
        let t := safe_request_go resp wait_time (attempt + 1) fuel
        ⟨t.result, t.attempts + 1, wait_time :: t.sleeps⟩
      else
        let t := safe_request_go resp wait_time (attempt + 1) fuel
        ⟨t.result, t.attempts + 1, 2 :: t.sleeps⟩
    | .netError =>
      let t := safe_request_go resp wait_time (attempt + 1) fuel
      ⟨t.result, t.attempts + 1, wait_time :: t.sleeps⟩

/-- safe_request(url, retries, wait_time): run the retry loop from attempt 0.
The url is abstracted into the response oracle resp, which gives the outcome
of the n-th attempt. -/
def safe_request (resp : Nat → ReqOutcome) (retries wait_time : Nat) : FetchTrace :=
  safe_request_go resp wait_time 0 retries

/-- A row of df_weather, built from the parallel arrays of the daily block
of the weather API response. -/
structure WeatherRow where
  time : String
  temperature_2m_mean : ℚ
  wind_speed_10m_max : ℚ
  precipitation_sum : ℚ
deriving DecidableEq

/-- A row of df_air_hourly: an ISO timestamp string and the two pollutant
readings. -/
structure AirRow where
  time : String
  pm10 : ℚ
  pm2_5 : ℚ
deriving DecidableEq

/-- A row of df_air_daily, after resampling to daily means and rendering the
timestamp back to a YYYY-MM-DD string. -/
structure AirDailyRow where
  time : String
  pm10 : ℚ
  pm2_5 : ℚ
deriving DecidableEq

/-- A row of final_df: the inner-merge of a weather row and a daily air row
sharing the same date string, tagged with the city name. -/
structure MergedRow where
  time : String
  temperature_2m_mean : ℚ
  wind_speed_10m_max : ℚ
  precipitation_sum : ℚ
  pm10 : ℚ
  pm2_5 : ℚ
  city : String
deriving DecidableEq

/-- Worker for dedupFirst: skip elements already seen, emit new ones. -/
def dedupFirstAux {α : Type} [DecidableEq α] (seen : List α) : List α → List α
  | [] => []
  | x :: xs =>
    if x ∈ seen then dedupFirstAux seen xs
    else x :: dedupFirstAux (x :: seen) xs

/-- Keep the first occurrence of each element, dropping later duplicates:
the set of group keys of a pandas groupby, in order of first appearance. -/
def dedupFirst {α : Type} [DecidableEq α] (l : List α) : List α :=
  dedupFirstAux [] l

/-- Arithmetic mean of a list of rationals (the pandas mean aggregate). -/
def mean (xs : List ℚ) : ℚ := xs.sum / (xs.length : ℚ)

/-- The calendar day of an ISO timestamp string such as 2016-01-01T00:00,
as produced by resampling to frequency D and strftime with format
YYYY-MM-DD. -/
def dayOf (ts : String) : String := ts.take 10

/-- resample to daily buckets and take the mean: one output row per calendar
day occurring in the hourly series, carrying the arithmetic mean of pm10 and
pm2_5 over the hours of that day. -/
def resampleDailyMean (rows : List AirRow) : List AirDailyRow :=
  (dedupFirst (rows.map (fun r => dayOf r.time))).map (fun d =>
    let grp := rows.filter (fun r => decide (dayOf r.time = d))
    ⟨d, mean (grp.map AirRow.pm10), mean (grp.map AirRow.pm2_5)⟩)

/-- pd.merge(df_weather, df_air_daily, on=time) followed by tagging with the
city name: the default merge is an inner equi-join, pairing every weather
row with every daily air row that has the same date string, in left-frame
order. -/
def mergeOnTime (w : List WeatherRow) (a : List AirDailyRow) (city : String) :
    List MergedRow :=
  (w.map (fun wr =>
    (a.filter (fun ar => decide (ar.time = wr.time))).map (fun ar =>
      ⟨wr.time, wr.temperature_2m_mean, wr.wind_speed_10m_max,
       wr.precipitation_sum, ar.pm10, ar.pm2_5, city⟩))).flatten

/-- Extract a column: the value under key k must be a JSON array. -/
def decodeCol (j : Json) (k : String) : Option (List Json) :=
  match j.get? k with
  | some (.arr xs) => some xs
  | _ => none

/-- A JSON string scalar. -/
def Json.asStr? : Json → Option String
  | .str s => some s
  | _ => none

/-- A JSON numeric scalar. -/
def Json.asNum? : Json → Option ℚ
  | .num q => some q
  | _ => none

/-- Zip the four parallel weather columns into rows. -/
def zipWeather : List String → List ℚ → List ℚ → List ℚ → List WeatherRow
  | t :: ts, x :: xs, y :: ys, z :: zs => ⟨t, x, y, z⟩ :: zipWeather ts xs ys zs
  | _, _, _, _ => []

/-- Zip the three parallel hourly air-quality columns into rows. -/
def zipAir : List String → List ℚ → List ℚ → List AirRow
  | t :: ts, x :: xs, y :: ys => ⟨t, x, y⟩ :: zipAir ts xs ys
  | _, _, _ => []

/-- pd.DataFrame(w_data of daily): read the parallel arrays time,
temperature_2m_mean, wind_speed_10m_max, precipitation_sum of the daily
block into weather rows. Returns none when the shape is unexpected, which
the source reports as a data-processing error. -/
def decodeWeather (w : Json) : Option (List WeatherRow) := do
  let daily ← w.get? "daily"
  let times ← (← decodeCol daily "time").mapM Json.asStr?
  let temps ← (← decodeCol daily "temperature_2m_mean").mapM Json.asNum?
  let winds ← (← decodeCol daily "wind_speed_10m_max").mapM Json.asNum?
  let precs ← (← decodeCol daily "precipitation_sum").mapM Json.asNum?
  if times.length = temps.length ∧ temps.length = winds.length ∧
      winds.length = precs.length then
    some (zipWeather times temps winds precs)
  else none

/-- pd.DataFrame(a_data of hourly) followed by pd.to_datetime on the time
column: read the parallel arrays time, pm10, pm2_5 of the hourly block into
hourly air rows. -/
def decodeAirHourly (a : Json) : Option (List AirRow) := do
  let hourly ← a.get? "hourly"
  let times ← (← decodeCol hourly "time").mapM Json.asStr?
  let pm10s ← (← decodeCol hourly "pm10").mapM Json.asNum?
  let pm25s ← (← decodeCol hourly "pm2_5").mapM Json.asNum?
  if times.length = pm10s.length ∧ pm10s.length = pm25s.length then
    some (zipAir times pm10s pm25s)
  else none

/-- The two HTTP endpoints a city fetch touches; the concrete URL is a pure
function of the coordinates, so the endpoint stands for the URL. -/
inductive Endpoint where
  | weather (lat lon : ℚ)
  | air (lat lon : ℚ)

/-- get_historical_data(city_name, lat, lon) against a response oracle: fetch
weather, bail out (empty dataframe) when the result is falsy; fetch air
quality, bail out when falsy; build the weather frame, bail out on a
processing error; check the hourly key, bail out when missing; build the
hourly frame, resample it to daily means and inner-merge with weather on the
date, tagging rows with the city name. Every failure path returns the empty
dataframe. -/
def get_historical_data (oracle : Endpoint → Nat → ReqOutcome)
    (city : String) (lat lon : ℚ) : List MergedRow :=
  let w_data := (safe_request (oracle (.weather lat lon)) 5 10).result
  if truthyOpt w_data then
    let a_data := (safe_request (oracle (.air lat lon)) 5 10).result
    if truthyOpt a_data then
      match decodeWeather (w_data.getD .null) with
      | none => []
      | some wrows =>
        if (a_data.getD .null).hasKey "hourly" then
          match decodeAirHourly (a_data.getD .null) with
          | none => []
          | some arows => mergeOnTime wrows (resampleDailyMean arows) city
        else []
    else []
  else []

/-- The hardcoded city table of the Collector: name, latitude, longitude. -/
def CITIES : List (String × ℚ × ℚ) :=
  [("Warszawa", 52.23, 21.01), ("Kraków", 50.06, 19.94),
   ("Łódź", 51.75, 19.46), ("Wrocław", 51.11, 17.03),
   ("Poznań", 52.41, 16.92), ("Gdańsk", 54.35, 18.65),
   ("Szczecin", 53.43, 14.55), ("Bydgoszcz", 53.12, 18.00),
   ("Lublin", 51.25, 22.57), ("Białystok", 53.13, 23.16),
   ("Katowice", 50.26, 19.02), ("Gdynia", 54.52, 18.53),
   ("Częstochowa", 50.81, 19.12), ("Radom", 51.40, 21.15),
   ("Toruń", 53.01, 18.60), ("Sosnowiec", 50.28, 19.10),
   ("Kielce", 50.87, 20.63), ("Rzeszów", 50.04, 21.99),
   ("Gliwice", 50.29, 18.67), ("Zabrze", 50.32, 18.79)]

def OUTPUT_FILENAME : String := "dane_polska_2004_2026.csv"

/-- The all_data accumulator of run_scraper over a given city list: the
per-city dataframes, keeping only the non-empty ones (the source appends df
only when df is not empty). -/
def collect_all (oracle : Endpoint → Nat → ReqOutcome)
    (cities : List (String × ℚ × ℚ)) : List (List MergedRow) :=
  (cities.map (fun c => get_historical_data oracle c.1 c.2.1 c.2.2)).filter
    (fun dfr => !dfr.isEmpty)

/-- run_scraper: iterate the city table, accumulate non-empty city frames;
when at least one city succeeded, write the concatenation to the output CSV
(modelled as returning the filename and rows); when none did, report failure
and write no file (modelled as none). -/
def run_scraper (oracle : Endpoint → Nat → ReqOutcome) :
    Option (String × List MergedRow) :=
  let all_data := collect_all oracle CITIES
  if all_data.isEmpty then none
  else some (OUTPUT_FILENAME, all_data.flatten)

/-- A calendar date, as recovered by pd.to_datetime from the time column of
the intermediate CSV. -/
structure Date where
  year : Nat
  month : Nat
  day : Nat
deriving DecidableEq

/-- A row of the Aggregator input frame after parsing dates: the columns of
the Collector CSV. The derived calendar columns (Year, Month, day names) are
pure functions of the time field and are read off it directly. -/
structure Row where
  time : Date
  temperature_2m_mean : ℚ
  wind_speed_10m_max : ℚ
  precipitation_sum : ℚ
  pm10 : ℚ
  pm2_5 : ℚ
  city : String
deriving DecidableEq

/-- The year filter of the Aggregator: df = df[df.time.dt.year >= 2016],
applied once to the raw frame before any summary is computed. -/
def df (raw : List Row) : List Row :=
  raw.filter (fun r => decide (2016 ≤ r.time.year))

/-- groupby(key) followed by the mean of val: one output pair per distinct
key, carrying the arithmetic mean of val over the rows with that key. (The
source lists group keys in sorted order; key order is irrelevant to the
properties proved here, so keys are listed in order of first appearance.) -/
def groupMeanBy {α β : Type} [DecidableEq β] (key : α → β) (val : α → ℚ)
    (rows : List α) : List (β × ℚ) :=
  (dedupFirst (rows.map key)).map (fun k =>
    (k, mean ((rows.filter (fun r => decide (key r = k))).map val)))

/-- Yearly trend summary: mean PM10 per year over the filtered frame. -/
def yearly_trend (raw : List Row) : List (Nat × ℚ) :=
  groupMeanBy (fun r => r.time.year) Row.pm10 (df raw)

/-- classify_scenario(row): first matching rule wins. -/
def classify_scenario (row : Row) : String :=
  let t := row.temperature_2m_mean
  let w := row.wind_speed_10m_max
  if t < 5 ∧ w < 10 then "1. ZIMNO I BEZWIETRZNIE"
  else if t < 5 ∧ w > 20 then "2. ZIMNO Z WIATREM"
  else if t > 15 then "3. LATO"
  else "4. INNE"

/-- The scenario-duel summary: mean PM10 per scenario label over the
filtered frame, with the residual label 4. INNE removed from the output. -/
def scenarios (raw : List Row) : List (String × ℚ) :=
  (groupMeanBy classify_scenario Row.pm10 (df raw)).filter
    (fun p => decide (¬ p.1 = "4. INNE"))

/-- The rows counted by the city ranking: days of the filtered frame with
PM10 strictly above 50. -/
def exceedDays (raw : List Row) : List Row :=
  (df raw).filter (fun r => decide (r.pm10 > 50))

/-- groupby(city).size() over the smog-day rows: one pair per city occurring
there, with the number of its smog days. -/
def cityCounts (raw : List Row) : List (String × Nat) :=
  (dedupFirst ((exceedDays raw).map Row.city)).map (fun c =>
    (c, ((exceedDays raw).filter (fun r => decide (r.city = c))).length))

/-- The descending-count order used by sort_values(ascending=False). -/
def byCountDesc (a b : String × Nat) : Prop := b.2 ≤ a.2

instance : DecidableRel byCountDesc :=
  fun a b => inferInstanceAs (Decidable (b.2 ≤ a.2))

instance : IsTotal (String × Nat) byCountDesc :=
  ⟨fun a b => Nat.le_total b.2 a.2⟩

instance : IsTrans (String × Nat) byCountDesc :=
  ⟨fun _ _ _ h1 h2 => Nat.le_trans h2 h1⟩

/-- The top-polluted-cities table: the per-city smog-day counts sorted in
descending count order, truncated to the first 10 rows. -/
def city_stats (raw : List Row) : List (String × Nat) :=
  (List.insertionSort byCountDesc (cityCounts raw)).take 10

/-- get_newyear_label(row): the fixed window Dec 29 to Jan 3 gets one label
per day, every other date gets NaN (modelled as none, dropped by dropna). -/
def get_newyear_label (row : Row) : Option String :=
  let m := row.time.month
  let d := row.time.day
  if m = 12 ∧ d = 29 then some "1. 29 Grudnia"
  else if m = 12 ∧ d = 30 then some "2. 30 Grudnia"
  else if m = 12 ∧ d = 31 then some "3. SYLWESTER"
  else if m = 1 ∧ d = 1 then some "4. NOWY ROK"
  else if m = 1 ∧ d = 2 then some "5. 2 Stycznia"
  else if m = 1 ∧ d = 3 then some "6. 3 Stycznia"
  else none

/-- The New Year summary: drop the rows with no label, group by the label
and take the mean PM10. -/
def new_year_stats (raw : List Row) : List (String × ℚ) :=
  groupMeanBy (fun p => p.1) (fun p => p.2.pm10)
    ((df raw).filterMap (fun r => (get_newyear_label r).map (fun l => (l, r))))

theorem mem_dedupFirstAux {α : Type} [DecidableEq α] (l seen : List α) (a : α) :
    a ∈ dedupFirstAux seen l ↔ a ∈ l ∧ a ∉ seen := by
  induction l generalizing seen with
  | nil => simp [dedupFirstAux]
  | cons x xs ih =>
    rw [dedupFirstAux]
    by_cases hx : x ∈ seen
    · rw [if_pos hx, ih]
      constructor
      · rintro ⟨h1, h2⟩
        exact ⟨List.mem_cons_of_mem x h1, h2⟩
      · rintro ⟨h1, h2⟩
        rcases List.mem_cons.mp h1 with rfl | h1
        · exact absurd hx h2
        · exact ⟨h1, h2⟩
    · rw [if_neg hx]
      by_cases hax : a = x
      · subst hax
        simp [hx]
      · simp only [List.mem_cons, hax, false_or]
        rw [ih]
        simp [hax]

theorem nodup_dedupFirstAux {α : Type} [DecidableEq α] (l seen : List α) :
    (dedupFirstAux seen l).Nodup := by
  induction l generalizing seen with
  | nil => simp [dedupFirstAux]
  | cons x xs ih =>
    rw [dedupFirstAux]
    by_cases hx : x ∈ seen
    · rw [if_pos hx]
      exact ih seen
    · rw [if_neg hx]
      refine List.nodup_cons.mpr ⟨?_, ih _⟩
      rw [mem_dedupFirstAux]
      rintro ⟨_, h2⟩
      exact h2 (List.mem_cons_self x seen)

theorem mem_dedupFirst {α : Type} [DecidableEq α] (l : List α) (a : α) :
    a ∈ dedupFirst l ↔ a ∈ l := by
  rw [dedupFirst, mem_dedupFirstAux]
  simp

theorem nodup_dedupFirst {α : Type} [DecidableEq α] (l : List α) :
    (dedupFirst l).Nodup :=
  nodup_dedupFirstAux l []

theorem resample_times_nodup (rows : List AirRow) :
    ((resampleDailyMean rows).map AirDailyRow.time).Nodup := by
  have h : (resampleDailyMean rows).map AirDailyRow.time
      = dedupFirst (rows.map (fun r => dayOf r.time)) := by
    rw [resampleDailyMean, List.map_map]
    exact List.map_id _
  rw [h]
  exact nodup_dedupFirst _

theorem mergeOnTime_filter_time (w : List WeatherRow) (a : List AirDailyRow)
    (city d : String) :
    ((mergeOnTime w a city).filter (fun r => decide (r.time = d))).length
      = (w.filter (fun x => decide (x.time = d))).length
        * (a.filter (fun x => decide (x.time = d))).length := by
  induction w with
  | nil => simp [mergeOnTime]
  | cons wr ws ih =>
    rw [mergeOnTime, List.map_cons, List.flatten_cons, List.filter_append,
      List.length_append]
    rw [mergeOnTime] at ih
    rw [ih, List.filter_cons]
    by_cases h : wr.time = d
    · subst h
      simp [List.filter_map, Function.comp]
      ring
    · simp [h, List.filter_map, Function.comp]

theorem length_filter_key_nodup {α β : Type} [DecidableEq β] (f : α → β)
    (l : List α) (hl : (l.map f).Nodup) (d : β) :
    (l.filter (fun x => decide (f x = d))).length
      = if d ∈ l.map f then 1 else 0 := by
  induction l with
  | nil => simp
  | cons x xs ih =>
    rw [List.map_cons, List.nodup_cons] at hl
    rw [List.filter_cons, List.map_cons]
    by_cases h : f x = d
    · subst h
      have hzero : xs.filter (fun y => decide (f y = f x)) = [] := by
        rw [List.filter_eq_nil_iff]
        intro b hb
        simp only [decide_eq_true_eq]
        intro hc
        exact hl.1 (hc ▸ List.mem_map_of_mem f hb)
      simp [hzero]
    · have := ih hl.2
      simp only [decide_eq_true_eq, h, if_false]
      rw [this]
      simp [h, Ne.symm h]

theorem mergeOnTime_length (w : List WeatherRow) (a : List AirDailyRow)
    (city : String) (ha : (a.map AirDailyRow.time).Nodup) :
    (mergeOnTime w a city).length
      = ((w.map WeatherRow.time).filter
          (fun t => decide (t ∈ a.map AirDailyRow.time))).length := by
  induction w with
  | nil => simp [mergeOnTime]
  | cons wr ws ih =>
    rw [mergeOnTime, List.map_cons, List.flatten_cons, List.length_append]
    rw [mergeOnTime] at ih
    rw [ih, List.map_cons, List.filter_cons]
    have hlen : (a.filter (fun ar => decide (ar.time = wr.time))).length
        = if wr.time ∈ a.map AirDailyRow.time then 1 else 0 :=
      length_filter_key_nodup AirDailyRow.time a ha wr.time
    rw [List.length_map, hlen]
    by_cases h : wr.time ∈ a.map AirDailyRow.time
    · simp [h]
      omega
    · simp [h]

/-- C1: for a city where both fetches succeed, the merged per-city daily
table has exactly one row per date present both in the daily weather series
and in the daily-resampled air-quality series, and no row for a date present
on one side only; consequently the merged row count is the number of weather
dates also present in the resampled air series. The weather series is
assumed to list each date once, as the daily weather API does. -/
theorem merge_one_row_per_common_date (w : List WeatherRow)
    (hourly : List AirRow) (city d : String)
    (hw : (w.map WeatherRow.time).Nodup) :
    ((mergeOnTime w (resampleDailyMean hourly) city).filter
        (fun r => decide (r.time = d))).length
      = (if d ∈ w.map WeatherRow.time ∧
            d ∈ (resampleDailyMean hourly).map AirDailyRow.time
         then 1 else 0)
    ∧ (mergeOnTime w (resampleDailyMean hourly) city).length
      = ((w.map WeatherRow.time).filter
          (fun t =>
            decide (t ∈ (resampleDailyMean hourly).map AirDailyRow.time))).length := by
  constructor
  · rw [mergeOnTime_filter_time,
      length_filter_key_nodup WeatherRow.time w hw d,
      length_filter_key_nodup AirDailyRow.time _ (resample_times_nodup hourly) d]
    by_cases h1 : d ∈ w.map WeatherRow.time <;>
      by_cases h2 : d ∈ (resampleDailyMean hourly).map AirDailyRow.time <;>
      simp [h1, h2]
  · exact mergeOnTime_length w _ city (resample_times_nodup hourly)

/-- Witness for C1 at a concrete input: a one-day weather series and two
hourly readings on that same day merge to exactly one row. -/
theorem merge_one_row_per_common_date_witness :
    (([⟨"2016-01-01", 1, 2, 0⟩] : List WeatherRow).map WeatherRow.time).Nodup
    ∧ (((mergeOnTime [⟨"2016-01-01", 1, 2, 0⟩]
          (resampleDailyMean [⟨"2016-01-01T00:00", 10, 5⟩, ⟨"2016-01-01T01:00", 20, 5⟩])
          "Warszawa").filter (fun r => decide (r.time = "2016-01-01"))).length
        = (if "2016-01-01" ∈ ([⟨"2016-01-01", 1, 2, 0⟩] : List WeatherRow).map WeatherRow.time ∧
              "2016-01-01" ∈ (resampleDailyMean
                [⟨"2016-01-01T00:00", 10, 5⟩, ⟨"2016-01-01T01:00", 20, 5⟩]).map AirDailyRow.time
           then 1 else 0)
      ∧ (mergeOnTime [⟨"2016-01-01", 1, 2, 0⟩]
          (resampleDailyMean [⟨"2016-01-01T00:00", 10, 5⟩, ⟨"2016-01-01T01:00", 20, 5⟩])
          "Warszawa").length
        = ((([⟨"2016-01-01", 1, 2, 0⟩] : List WeatherRow).map WeatherRow.time).filter
            (fun t => decide (t ∈ (resampleDailyMean
              [⟨"2016-01-01T00:00", 10, 5⟩, ⟨"2016-01-01T01:00", 20, 5⟩]).map AirDailyRow.time))).length) :=
  ⟨by decide,
   merge_one_row_per_common_date [⟨"2016-01-01", 1, 2, 0⟩]
     [⟨"2016-01-01T00:00", 10, 5⟩, ⟨"2016-01-01T01:00", 20, 5⟩]
     "Warszawa" "2016-01-01" (by decide)⟩

/-- C2: with retries=5, the response sequence 500, 500, 200 makes
safe_request return the parsed payload of the 200 response after exactly two
backoff waits of wait_time seconds (the 200 being the third attempt); five
consecutive 500 responses make it return None, not an exception, after
exactly five attempts, having backed off five times. -/
theorem retry_backoff_policy (body : Json) (wt : Nat) :
    safe_request
        (fun n => if n < 2 then .success 500 .null else .success 200 body) 5 wt
      = ⟨some body, 3, [wt, wt]⟩
    ∧ safe_request (fun _ => .success 500 .null) 5 wt
      = ⟨none, 5, [wt, wt, wt, wt, wt]⟩ := by
  exact ⟨rfl, rfl⟩

/-- C9 counterexample: the merge drops a date present in the weather series
but absent from the resampled air-quality series, so the join is not a left
join that would retain every weather date. -/
theorem weather_date_dropped_counterexample :
    "2016-01-02" ∈ (([⟨"2016-01-01", 1, 2, 0⟩, ⟨"2016-01-02", 1, 2, 0⟩] :
        List WeatherRow).map WeatherRow.time)
    ∧ "2016-01-02" ∉ (mergeOnTime [⟨"2016-01-01", 1, 2, 0⟩, ⟨"2016-01-02", 1, 2, 0⟩]
        (resampleDailyMean [⟨"2016-01-01T00:00", 10, 5⟩])
        "Warszawa").map MergedRow.time := by
  decide

/-- C9 amended: the combination is an inner join on the date, so a date
appears in the merged table exactly when it is present in both the weather
series and the daily air series; weather dates missing from the air series
are not retained. -/
theorem merge_inner_join_membership (w : List WeatherRow)
    (a : List AirDailyRow) (city d : String) :
    d ∈ (mergeOnTime w a city).map MergedRow.time
      ↔ d ∈ w.map WeatherRow.time ∧ d ∈ a.map AirDailyRow.time := by
  constructor
  · intro hd
    rcases List.mem_map.mp hd with ⟨r, hr, rfl⟩
    rcases List.mem_flatten.mp hr with ⟨blk, hblk, hrb⟩
    rcases List.mem_map.mp hblk with ⟨wr, hwr, rfl⟩
    rcases List.mem_map.mp hrb with ⟨ar, harf, rfl⟩
    rcases List.mem_filter.mp harf with ⟨har, hart⟩
    have hart2 : ar.time = wr.time := by simpa using hart
    exact ⟨List.mem_map.mpr ⟨wr, hwr, rfl⟩,
      List.mem_map.mpr ⟨ar, har, hart2⟩⟩
  · rintro ⟨hdw, hda⟩
    rcases List.mem_map.mp hdw with ⟨wr, hwr, rfl⟩
    rcases List.mem_map.mp hda with ⟨ar, har, hart⟩
    refine List.mem_map.mpr ⟨⟨wr.time, wr.temperature_2m_mean,
      wr.wind_speed_10m_max, wr.precipitation_sum, ar.pm10, ar.pm2_5, city⟩,
      ?_, rfl⟩
    refine List.mem_flatten.mpr ⟨_, List.mem_map.mpr ⟨wr, hwr, rfl⟩, ?_⟩
    exact List.mem_map.mpr ⟨ar, List.mem_filter.mpr ⟨har, by simpa using hart⟩, rfl⟩

/-- C3: the scenario classification is total on rows into the four labels
and evaluates its rules in first-match order: rule 1 for temperature below 5
and wind below 10; failing that, rule 2 for temperature below 5 and wind
above 20; failing that, rule 3 for temperature above 15; everything else is
the residual label, and the residual label never reaches the scenario
output. The three concrete example points of the specification follow. -/
theorem scenario_classification :
    (∀ r : Row, classify_scenario r = "1. ZIMNO I BEZWIETRZNIE"
      ∨ classify_scenario r = "2. ZIMNO Z WIATREM"
      ∨ classify_scenario r = "3. LATO"
      ∨ classify_scenario r = "4. INNE")
    ∧ (∀ r : Row, r.temperature_2m_mean < 5 → r.wind_speed_10m_max < 10 →
        classify_scenario r = "1. ZIMNO I BEZWIETRZNIE")
    ∧ (∀ r : Row,
        ¬ (r.temperature_2m_mean < 5 ∧ r.wind_speed_10m_max < 10) →
        r.temperature_2m_mean < 5 → r.wind_speed_10m_max > 20 →
        classify_scenario r = "2. ZIMNO Z WIATREM")
    ∧ (∀ r : Row,
        ¬ (r.temperature_2m_mean < 5 ∧ r.wind_speed_10m_max < 10) →
        ¬ (r.temperature_2m_mean < 5 ∧ r.wind_speed_10m_max > 20) →
        r.temperature_2m_mean > 15 → classify_scenario r = "3. LATO")
    ∧ (∀ r : Row,
        ¬ (r.temperature_2m_mean < 5 ∧ r.wind_speed_10m_max < 10) →
        ¬ (r.temperature_2m_mean < 5 ∧ r.wind_speed_10m_max > 20) →
        ¬ r.temperature_2m_mean > 15 → classify_scenario r = "4. INNE")
    ∧ (∀ r : Row, r.temperature_2m_mean = 0 → r.wind_speed_10m_max = 5 →
        classify_scenario r = "1. ZIMNO I BEZWIETRZNIE")
    ∧ (∀ r : Row, r.temperature_2m_mean = 0 → r.wind_speed_10m_max = 25 →
        classify_scenario r = "2. ZIMNO Z WIATREM")
    ∧ (∀ r : Row, r.temperature_2m_mean = 20 → r.wind_speed_10m_max = 25 →
        classify_scenario r = "3. LATO")
    ∧ (∀ (raw : List Row) (p : String × ℚ), p ∈ scenarios raw →
        ¬ p.1 = "4. INNE") := by
  refine ⟨?_, ?_, ?_, ?_, ?_, ?_, ?_, ?_, ?_⟩
  · intro r
    dsimp only [classify_scenario]
    split_ifs <;> simp
  · intro r h1 h2
    simp [classify_scenario, h1, h2]
  · intro r h0 h1 h2
    have hw : ¬ r.wind_speed_10m_max < 10 := fun hlt => h0 ⟨h1, hlt⟩
    simp [classify_scenario, h0, h1, h2, hw]
  · intro r h0 h1 h2
    simp [classify_scenario, h0, h1, h2]
  · intro r h0 h1 h2
    simp [classify_scenario, h0, h1, h2]
  · intro r h1 h2
    norm_num [classify_scenario, h1, h2]
  · intro r h1 h2
    norm_num [classify_scenario, h1, h2]
  · intro r h1 h2
    norm_num [classify_scenario, h1, h2]
  · intro raw p hp
    have := (List.mem_filter.mp hp).2
    simpa using this

/-- Witness for C3 at the three example points of the specification. -/
theorem scenario_classification_witness :
    (⟨⟨2020, 1, 10⟩, 0, 5, 0, 40, 20, "Radom"⟩ : Row).temperature_2m_mean = 0
    ∧ (⟨⟨2020, 1, 10⟩, 0, 5, 0, 40, 20, "Radom"⟩ : Row).wind_speed_10m_max = 5
    ∧ classify_scenario ⟨⟨2020, 1, 10⟩, 0, 5, 0, 40, 20, "Radom"⟩
        = "1. ZIMNO I BEZWIETRZNIE"
    ∧ classify_scenario ⟨⟨2020, 1, 10⟩, 0, 25, 0, 40, 20, "Radom"⟩
        = "2. ZIMNO Z WIATREM"
    ∧ classify_scenario ⟨⟨2020, 7, 10⟩, 20, 25, 0, 40, 20, "Radom"⟩
        = "3. LATO" :=
  ⟨rfl, rfl,
   scenario_classification.2.2.2.2.2.1 _ rfl rfl,
   scenario_classification.2.2.2.2.2.2.1 _ rfl rfl,
   scenario_classification.2.2.2.2.2.2.2.1 _ rfl rfl⟩

/-- C4: the Aggregator frame is filtered once to calendar year at least
2016; a row of the filtered frame always has year at least 2016, a raw row
dated 2016-01-01 survives the filter, and deleting rows dated 2015-12-31
from the raw input leaves the filtered frame, and hence every summary
computed from it, unchanged (spelled out for the yearly trend). -/
theorem aggregator_year_filter (raw : List Row) (r : Row) :
    (r ∈ df raw → 2016 ≤ r.time.year)
    ∧ (r ∈ raw → r.time = ⟨2016, 1, 1⟩ → r ∈ df raw)
    ∧ df (raw.filter (fun x => decide (¬ x.time = ⟨2015, 12, 31⟩))) = df raw
    ∧ yearly_trend (raw.filter (fun x => decide (¬ x.time = ⟨2015, 12, 31⟩)))
      = yearly_trend raw := by
  have h3 : df (raw.filter (fun x => decide (¬ x.time = ⟨2015, 12, 31⟩)))
      = df raw := by
    rw [df, df, List.filter_filter]
    refine List.filter_congr ?_
    intro x _
    by_cases hy : 2016 ≤ x.time.year
    · have hne : ¬ x.time = ⟨2015, 12, 31⟩ := by
        intro hcon
        have h2015 : x.time.year = 2015 := by rw [hcon]
        omega
      simp [hy, hne]
    · simp [hy]
  refine ⟨?_, ?_, h3, ?_⟩
  · intro hr
    have := (List.mem_filter.mp hr).2
    simpa using this
  · intro hr ht
    refine List.mem_filter.mpr ⟨hr, ?_⟩
    rw [ht]
    simp
  · rw [yearly_trend, yearly_trend, h3]

/-- Witness for C4: a concrete row dated 2016-01-01 passes the filter. -/
theorem aggregator_year_filter_witness :
    ((⟨⟨2016, 1, 1⟩, 1, 1, 0, 30, 10, "Radom"⟩ : Row)
        ∈ [(⟨⟨2016, 1, 1⟩, 1, 1, 0, 30, 10, "Radom"⟩ : Row)])
    ∧ (⟨⟨2016, 1, 1⟩, 1, 1, 0, 30, 10, "Radom"⟩ : Row).time = ⟨2016, 1, 1⟩
    ∧ (⟨⟨2016, 1, 1⟩, 1, 1, 0, 30, 10, "Radom"⟩ : Row)
        ∈ df [⟨⟨2016, 1, 1⟩, 1, 1, 0, 30, 10, "Radom"⟩] :=
  ⟨List.mem_singleton.mpr rfl, rfl,
   (aggregator_year_filter [⟨⟨2016, 1, 1⟩, 1, 1, 0, 30, 10, "Radom"⟩]
       ⟨⟨2016, 1, 1⟩, 1, 1, 0, 30, 10, "Radom"⟩).2.1
     (List.mem_singleton.mpr rfl) rfl⟩

/-- C5: when a city fetch yields no data on either source, or the
air-quality payload lacks the hourly field, get_historical_data returns the
empty frame, and the combined accumulator over any city list containing
that city equals the accumulator without it: the city contributes zero rows
and the remaining cities are processed unchanged. -/
theorem city_failure_skipped (oracle : Endpoint → Nat → ReqOutcome)
    (city : String) (lat lon : ℚ) (pre post : List (String × ℚ × ℚ))
    (h : truthyOpt ((safe_request (oracle (.weather lat lon)) 5 10).result) = false
       ∨ truthyOpt ((safe_request (oracle (.air lat lon)) 5 10).result) = false
       ∨ ((safe_request (oracle (.air lat lon)) 5 10).result.getD .null).hasKey
           "hourly" = false) :
    get_historical_data oracle city lat lon = []
    ∧ collect_all oracle (pre ++ (city, lat, lon) :: post)
      = collect_all oracle (pre ++ post) := by
  have hempty : get_historical_data oracle city lat lon = [] := by
    rcases h with h | h | h
    · simp [get_historical_data, h]
    · simp [get_historical_data, h]
    · by_cases hw : truthyOpt ((safe_request (oracle (.weather lat lon)) 5 10).result)
      · by_cases ha : truthyOpt ((safe_request (oracle (.air lat lon)) 5 10).result)
        · cases hdw : decodeWeather (((safe_request (oracle (.weather lat lon)) 5 10).result).getD .null) with
          | none => simp [get_historical_data, hw, ha, hdw]
          | some wrows => simp [get_historical_data, hw, ha, hdw, h]
        · simp [get_historical_data, hw, ha]
      · simp [get_historical_data, hw]
  refine ⟨hempty, ?_⟩
  simp [collect_all, List.map_append, List.filter_append, hempty]

/-- Witness for C5: an oracle whose every request raises a transport error
makes the weather fetch falsy, the city frame empty and the accumulator as
if the city were absent. -/
theorem city_failure_skipped_witness :
    truthyOpt ((safe_request ((fun _ _ => ReqOutcome.netError)
        (Endpoint.weather 52.23 21.01)) 5 10).result) = false
    ∧ (get_historical_data (fun _ _ => ReqOutcome.netError) "Warszawa" 52.23 21.01 = []
       ∧ collect_all (fun _ _ => ReqOutcome.netError)
            ([] ++ ("Warszawa", 52.23, 21.01) :: [])
         = collect_all (fun _ _ => ReqOutcome.netError) ([] ++ [])) :=
  ⟨rfl, city_failure_skipped (fun _ _ => ReqOutcome.netError) "Warszawa" 52.23 21.01
    [] [] (Or.inl rfl)⟩

/-- C8: when every configured city yields the empty frame, run_scraper
writes no output file at all and ends by reporting failure, returning
normally rather than raising. -/
theorem zero_success_no_file (oracle : Endpoint → Nat → ReqOutcome)
    (h : ∀ c ∈ CITIES, get_historical_data oracle c.1 c.2.1 c.2.2 = []) :
    run_scraper oracle = none := by
  have hc : collect_all oracle CITIES = [] := by
    rw [collect_all, List.filter_eq_nil_iff]
    intro x hx
    rcases List.mem_map.mp hx with ⟨c, hcmem, rfl⟩
    rw [h c hcmem]
    simp
  simp [run_scraper, hc]

/-- Witness for C8: with an all-failing oracle, no city succeeds and the
run produces no file. -/
theorem zero_success_no_file_witness :
    (∀ c ∈ CITIES, get_historical_data (fun _ _ => ReqOutcome.netError)
        c.1 c.2.1 c.2.2 = [])
    ∧ run_scraper (fun _ _ => ReqOutcome.netError) = none :=
  ⟨by decide, zero_success_no_file (fun _ _ => ReqOutcome.netError) (by decide)⟩

/-- C10 (implicit): a 200 response with a falsy JSON body, such as the
empty object, is returned by safe_request as data, but the truthiness check
in get_historical_data then treats the city exactly like retry exhaustion:
the city frame is empty in both cases. -/
theorem falsy_payload_treated_as_no_data (city : String) (lat lon : ℚ) :
    (safe_request (fun _ => ReqOutcome.success 200 (Json.obj [])) 5 10).result
      = some (Json.obj [])
    ∧ get_historical_data (fun _ _ => ReqOutcome.success 200 (Json.obj []))
        city lat lon = []
    ∧ get_historical_data (fun _ _ => ReqOutcome.success 500 Json.null)
        city lat lon = [] :=
  ⟨rfl, rfl, rfl⟩

theorem filterMap_filter_of_none {α β : Type} (p : α → Bool) (f : α → Option β)
    (l : List α) (h : ∀ x ∈ l, p x = false → f x = none) :
    (l.filter p).filterMap f = l.filterMap f := by
  induction l with
  | nil => rfl
  | cons x xs ih =>
    rw [List.filter_cons]
    by_cases hp : p x
    · rw [if_pos hp, List.filterMap_cons, List.filterMap_cons]
      cases f x with
      | none => exact ih (fun y hy => h y (List.mem_cons_of_mem x hy))
      | some b => rw [ih (fun y hy => h y (List.mem_cons_of_mem x hy))]
    · have hpx : p x = false := Bool.eq_false_iff.mpr hp
      rw [if_neg (by simp [hpx]), List.filterMap_cons,
        h x (List.mem_cons_self x xs) hpx]
      exact ih (fun y hy => h y (List.mem_cons_of_mem x hy))

theorem groupMeanBy_mem_key {α β : Type} [DecidableEq β] (key : α → β)
    (val : α → ℚ) (rows : List α) (k : β) (hk : k ∈ rows.map key) :
    (k, mean ((rows.filter (fun r => decide (key r = k))).map val))
      ∈ groupMeanBy key val rows := by
  rw [groupMeanBy]
  exact List.mem_map.mpr ⟨k, (mem_dedupFirst _ _).mpr hk, rfl⟩

theorem df_filter_comm (raw : List Row) (q : Row → Bool) :
    df (raw.filter q) = (df raw).filter q := by
  rw [df, df, List.filter_filter, List.filter_filter]
  refine List.filter_congr ?_
  intro x _
  rw [Bool.and_comm]

/-- C6: the New Year summary is built only from rows whose date lies in the
window of December 29 to January 3: the label of a row dated January 4 is
NaN, removing rows dated 2020-01-04 from the input leaves the summary
unchanged, and a raw row dated 2020-01-01 appears in the summary under the
label 4. NOWY ROK, the New Year Day bucket. -/
theorem newyear_window (raw : List Row) (r : Row) :
    (r.time.month = 1 → r.time.day = 4 → get_newyear_label r = none)
    ∧ new_year_stats (raw.filter (fun x => decide (¬ x.time = ⟨2020, 1, 4⟩)))
      = new_year_stats raw
    ∧ (r ∈ raw → r.time = ⟨2020, 1, 1⟩ →
        ∃ q, ("4. NOWY ROK", q) ∈ new_year_stats raw) := by
  refine ⟨?_, ?_, ?_⟩
  · intro h1 h2
    simp [get_newyear_label, h1, h2]
  · rw [new_year_stats, new_year_stats, df_filter_comm]
    rw [filterMap_filter_of_none]
    intro x _ hx
    have hx4 : x.time = ⟨2020, 1, 4⟩ := by
      by_contra hcon
      simp [hcon] at hx
    have hm : x.time.month = 1 := by rw [hx4]
    have hd : x.time.day = 4 := by rw [hx4]
    simp [get_newyear_label, hm, hd]
  · intro hr ht
    have hdf : r ∈ df raw := by
      refine List.mem_filter.mpr ⟨hr, ?_⟩
      rw [ht]
      simp
    have hlab : get_newyear_label r = some "4. NOWY ROK" := by
      have hm : r.time.month = 1 := by rw [ht]
      have hd : r.time.day = 1 := by rw [ht]
      simp [get_newyear_label, hm, hd]
    have hmem : ("4. NOWY ROK", r)
        ∈ (df raw).filterMap (fun x => (get_newyear_label x).map (fun l => (l, x))) := by
      refine List.mem_filterMap.mpr ⟨r, hdf, ?_⟩
      rw [hlab]
      rfl
    refine ⟨_, groupMeanBy_mem_key (fun p : String × Row => p.1)
      (fun p : String × Row => p.2.pm10)
      ((df raw).filterMap (fun x => (get_newyear_label x).map (fun l => (l, x))))
      "4. NOWY ROK" ?_⟩
    exact List.mem_map.mpr ⟨("4. NOWY ROK", r), hmem, rfl⟩

/-- Witness for C6: a single row dated 2020-01-01 lands in the New Year Day
bucket of the summary. -/
theorem newyear_window_witness :
    ((⟨⟨2020, 1, 1⟩, 1, 1, 0, 80, 40, "Radom"⟩ : Row)
        ∈ [(⟨⟨2020, 1, 1⟩, 1, 1, 0, 80, 40, "Radom"⟩ : Row)])
    ∧ (⟨⟨2020, 1, 1⟩, 1, 1, 0, 80, 40, "Radom"⟩ : Row).time = ⟨2020, 1, 1⟩
    ∧ ∃ q, ("4. NOWY ROK", q)
        ∈ new_year_stats [⟨⟨2020, 1, 1⟩, 1, 1, 0, 80, 40, "Radom"⟩] :=
  ⟨List.mem_singleton.mpr rfl, rfl,
   (newyear_window [⟨⟨2020, 1, 1⟩, 1, 1, 0, 80, 40, "Radom"⟩]
       ⟨⟨2020, 1, 1⟩, 1, 1, 0, 80, 40, "Radom"⟩).2.2
     (List.mem_singleton.mpr rfl) rfl⟩

/-- C7: the ranking counts, per city, the days of the filtered frame with
PM10 strictly above 50; whenever at least 11 cities have a positive count,
the output holds exactly 10 rows, sorted by descending count, and every
output row carries the smog-day count of its city, which is positive. -/
theorem top_polluted_ranking (raw : List Row)
    (h : 11 ≤ (cityCounts raw).length) :
    (city_stats raw).length = 10
    ∧ List.Sorted byCountDesc (city_stats raw)
    ∧ ∀ p ∈ city_stats raw,
        p.2 = ((exceedDays raw).filter (fun x => decide (x.city = p.1))).length
        ∧ 0 < p.2 := by
  have hperm : (List.insertionSort byCountDesc (cityCounts raw)).Perm
      (cityCounts raw) :=
    List.perm_insertionSort byCountDesc (cityCounts raw)
  refine ⟨?_, ?_, ?_⟩
  · rw [city_stats, List.length_take, hperm.length_eq]
    omega
  · exact (List.sorted_insertionSort byCountDesc (cityCounts raw)).sublist
      (List.take_sublist 10 _)
  · intro p hp
    have hp2 : p ∈ List.insertionSort byCountDesc (cityCounts raw) :=
      List.mem_of_mem_take hp
    have hp3 : p ∈ cityCounts raw := hperm.mem_iff.mp hp2
    rw [cityCounts] at hp3
    rcases List.mem_map.mp hp3 with ⟨c, hc, rfl⟩
    refine ⟨rfl, ?_⟩
    have hc2 : c ∈ (exceedDays raw).map Row.city := (mem_dedupFirst _ _).mp hc
    rcases List.mem_map.mp hc2 with ⟨x, hx, rfl⟩
    exact List.length_pos_of_mem
      (List.mem_filter.mpr ⟨hx, by simp⟩)

/-- Eleven single-smog-day rows in eleven distinct cities, used to witness
the ranking property at a concrete input. -/
def elevenCityRows : List Row :=
  [⟨⟨2020, 1, 1⟩, 1, 1, 0, 60, 30, "C01"⟩,
   ⟨⟨2020, 1, 2⟩, 1, 1, 0, 61, 30, "C02"⟩,
   ⟨⟨2020, 1, 3⟩, 1, 1, 0, 62, 30, "C03"⟩,
   ⟨⟨2020, 1, 4⟩, 1, 1, 0, 63, 30, "C04"⟩,
   ⟨⟨2020, 1, 5⟩, 1, 1, 0, 64, 30, "C05"⟩,
   ⟨⟨2020, 1, 6⟩, 1, 1, 0, 65, 30, "C06"⟩,
   ⟨⟨2020, 1, 7⟩, 1, 1, 0, 66, 30, "C07"⟩,
   ⟨⟨2020, 1, 8⟩, 1, 1, 0, 67, 30, "C08"⟩,
   ⟨⟨2020, 1, 9⟩, 1, 1, 0, 68, 30, "C09"⟩,
   ⟨⟨2020, 1, 10⟩, 1, 1, 0, 69, 30, "C10"⟩,
   ⟨⟨2020, 1, 11⟩, 1, 1, 0, 70, 30, "C11"⟩]

/-- Witness for C7: with eleven positive-count cities the ranking has
exactly 10 sorted rows of positive counts. -/
theorem top_polluted_ranking_witness :
    11 ≤ (cityCounts elevenCityRows).length
    ∧ ((city_stats elevenCityRows).length = 10
       ∧ List.Sorted byCountDesc (city_stats elevenCityRows)
       ∧ ∀ p ∈ city_stats elevenCityRows,
           p.2 = ((exceedDays elevenCityRows).filter
             (fun x => decide (x.city = p.1))).length
           ∧ 0 < p.2) :=
  ⟨by decide, top_polluted_ranking elevenCityRows (by decide)⟩
